import Mathlib

/-!
Shallow embedding of src/main.py (CA Portfolio API): the admin
authorization gate (verify_admin), the validation layer (allowed
sections, MIME types, max upload size) and the resource handlers
(get_entries, upload_file, update_dashboard, create_entry,
delete_entry), together with theorems settling the specification
claims about them.

External collaborators (the identity verifier and the
storage/database service) are modelled as explicit parameters and as
an explicit trace of external actions emitted by each handler, so
that statements of the form "rejected before any external call" are
the statement that the emitted trace is empty.
-/

namespace Pandu

/-- A JSON-like value, as carried in request bodies and table rows. -/
inductive Value where
  | str (s : String)
  | num (n : Int)
  | boolean (b : Bool)
  | null
  deriving DecidableEq, Repr

/-- A Python dict with string keys, modelled extensionally as a
partial map from keys to values. -/
def Dict : Type := String → Option Value

/-- Python dict assignment d[k] = v. -/
def dictSet (d : Dict) (k : String) (v : Value) : Dict :=
  fun s => if s = k then some v else d s

/-- Helper for pySplit: scan the characters, accumulating the current
word (reversed); whitespace ends a word, runs of whitespace and the
ends contribute nothing. -/
def pyWordsAux : List Char → List Char → List (List Char)
  | [], acc => if acc.isEmpty then [] else [acc.reverse]
  | c :: cs, acc =>
    if c.isWhitespace then
      if acc.isEmpty then pyWordsAux cs [] else acc.reverse :: pyWordsAux cs []
    else pyWordsAux cs (c :: acc)

/-- Python str.split() with no separator: split on whitespace runs,
discarding empty pieces. -/
def pySplit (s : String) : List String :=
  (pyWordsAux s.data []).map (fun w => String.mk w)

/-- Python str.lower(), on the ASCII range. -/
def pyLower (s : String) : String := String.mk (s.data.map Char.toLower)

/-- The verified identity claims returned by the identity verifier
(auth.verify_id_token): a UID and an optional email. -/
structure Claims where
  uid : String
  email : Option String
  deriving DecidableEq, Repr

/-- The identity verifier adapter: exchanges a bearer token for
verified claims, or fails (malformed, expired, bad signature). -/
def Verifier : Type := String → Option Claims

/-- Result of the admin authorization gate: either the verified
claims, or an HTTP rejection with a status code and detail. -/
inductive AuthResult where
  | ok (claims : Claims)
  | unauthorized (status : Nat) (detail : String)
  deriving DecidableEq, Repr

/-- verify_admin from src/main.py: split the Authorization header on
whitespace into scheme and token, require the scheme to be "bearer"
case-insensitively, verify the token, and require the decoded UID to
be in ADMIN_UIDS.  Every failure collapses to
HTTPException(401, "Unauthorized") by the except block. -/
def verify_admin (verify : Verifier) (ADMIN_UIDS : List String)
    (authorization : String) : AuthResult :=
  match pySplit authorization with
  | [scheme, token] =>
    if pyLower scheme ≠ "bearer" then
      .unauthorized 401 "Unauthorized"
    else
      match verify token with
      | none => .unauthorized 401 "Unauthorized"
      | some decoded =>
        if decoded.uid ∈ ADMIN_UIDS then .ok decoded
        else .unauthorized 401 "Unauthorized"
  | _ => .unauthorized 401 "Unauthorized"

/-- ALLOWED_SECTIONS from src/main.py (a Python set; only membership
is ever used). -/
def ALLOWED_SECTIONS : List String :=
  ["dashboard", "models", "valuations", "research", "presentations", "contact"]

/-- ALLOWED_MIME_TYPES from src/main.py. -/
def ALLOWED_MIME_TYPES : List String :=
  ["application/pdf",
   "application/vnd.ms-excel",
   "application/vnd.openxmlformats-officedocument.spreadsheetml.sheet",
   "application/vnd.ms-powerpoint",
   "application/vnd.openxmlformats-officedocument.presentationml.presentation",
   "image/jpeg",
   "image/png",
   "image/webp"]

/-- MAX_FILE_SIZE_MB from src/main.py. -/
def MAX_FILE_SIZE_MB : Nat := 20

/-- A row of the entries table, with the fields inserted by
create_entry.  Values come from the request body, so they are
JSON values; absent optional fields are inserted as null (none). -/
structure EntryRow where
  id : String
  section_key : Value
  title : Option Value
  industry : Option Value
  description : Option Value
  file_url : Option Value
  file_type : Option Value
  created_at : String
  deriving DecidableEq, Repr

/-- One external call made by a handler: a database operation on the
managed tabular service or a storage operation.  A handler returns,
beside its HTTP outcome, the trace of external calls it performed;
"rejected before any external call" is the statement that this trace
is empty. -/
inductive Action where
  | dbSelectEntries (sect : String)
  | dbInsertEntry (row : EntryRow)
  | dbDeleteEntries (entry_id : String)
  | dbSelectDashboard
  | dbUpdateDashboard (payload : Dict)
  | storageUpload (bucket : String) (path : String)
      (contents : List Nat) (contentType : String)
  | storageGetPublicUrl (bucket : String) (path : String)

/-- Outcome of a handler: a successful response value, an
HTTPException with status code and optional detail, or an unhandled
Python exception (e.g. KeyError), which the framework surfaces as an
internal server error. -/
inductive Outcome (R : Type) where
  | ok (r : R)
  | http (status : Nat) (detail : Option String)
  | fault (msg : String)
  deriving DecidableEq, Repr

/-- Insert an entry into a list sorted by created_at descending. -/
def insertByCreatedDesc (e : EntryRow) : List EntryRow → List EntryRow
  | [] => [e]
  | x :: xs =>
    if x.created_at < e.created_at then e :: x :: xs
    else x :: insertByCreatedDesc e xs

/-- Order rows by created_at descending, newest first, as the
database does for the order clause of get_entries. -/
def sortByCreatedDesc (l : List EntryRow) : List EntryRow :=
  l.foldr insertByCreatedDesc []

/-- get_entries from src/main.py.  The sect argument models the
section path parameter; db models the entries table.  An unknown
section is a 404 with no external call; otherwise the handler selects
the rows with that section_key ordered by created_at descending. -/
def get_entries (db : List EntryRow) (sect : String) :
    Outcome (List EntryRow) × List Action :=
  if sect ∉ ALLOWED_SECTIONS then
    (.http 404 none, [])
  else
    (.ok (sortByCreatedDesc (db.filter (fun e => decide (e.section_key = Value.str sect)))),
     [.dbSelectEntries sect])

/-- The uploaded file of the upload endpoint: original filename,
declared MIME type, and the buffered payload bytes. -/
structure UploadFile where
  filename : String
  content_type : String
  contents : List Nat
  deriving DecidableEq, Repr

/-- The response body of a successful upload. -/
structure UploadResponse where
  file_url : String
  file_type : String
  file_name : String
  deriving DecidableEq, Repr

/-- upload_file from src/main.py.  The sect argument models the
section query parameter; uuid4 the generated uuid; get_public_url the
public-URL issuance of the storage service (bucket and path to URL).
Checks run in source order: section whitelist, MIME whitelist, size
ceiling; only then the storage upload and public-URL call happen. -/
def upload_file (sect : String) (file : UploadFile)
    (uuid4 : String) (get_public_url : String → String → String) :
    Outcome UploadResponse × List Action :=
  if sect ∉ ALLOWED_SECTIONS then
    (.http 400 (some "Invalid section"), [])
  else if file.content_type ∉ ALLOWED_MIME_TYPES then
    (.http 400 (some "Invalid file type"), [])
  else if file.contents.length > MAX_FILE_SIZE_MB * 1024 * 1024 then
    (.http 400 (some "File too large"), [])
  else
    (.ok { file_url := get_public_url sect (uuid4 ++ "-" ++ file.filename),
           file_type := file.content_type,
           file_name := file.filename },
     [.storageUpload sect (uuid4 ++ "-" ++ file.filename) file.contents file.content_type,
      .storageGetPublicUrl sect (uuid4 ++ "-" ++ file.filename)])

/-- The allow-listed dashboard fields of update_dashboard. -/
def dashboardAllowedFields : List String :=
  ["name", "title", "photo_url", "metrics", "growth", "growth_years", "practice_mix"]

/-- The merge loop of update_dashboard: for k in allowed, if k is
present in data then payload[k] = data[k].  payload starts as a copy
of the existing row. -/
def mergeAllowed (data : Dict) : List String → Dict → Dict
  | [], payload => payload
  | k :: ks, payload =>
    mergeAllowed data ks
      (match data k with
       | some v => dictSet payload k v
       | none => payload)

/-- The status-only response bodies returned by the mutating admin
endpoints. -/
structure StatusResponse where
  status : String
  deriving DecidableEq, Repr

/-- The full payload written by update_dashboard: the existing row,
with the allow-listed fields present in data overwritten, and
updated_at stamped with the current UTC time in ISO format. -/
def dashboardPayload (existing : Dict) (data : Dict) (now_iso : String) : Dict :=
  dictSet (mergeAllowed data dashboardAllowedFields existing) "updated_at" (Value.str now_iso)

/-- update_dashboard from src/main.py.  existing models the result of
the select of the singleton row id=1 (none when no row is found); the
select itself is the first external call of the trace.  A missing row
is a 400 with no write; otherwise the merged payload is written back
to the row id=1. -/
def update_dashboard (existing : Option Dict) (data : Dict) (now_iso : String) :
    Outcome StatusResponse × List Action :=
  match existing with
  | none => (.http 400 (some "Dashboard row missing"), [.dbSelectDashboard])
  | some ex =>
    (.ok { status := "updated" },
     [.dbSelectDashboard, .dbUpdateDashboard (dashboardPayload ex data now_iso)])

/-- create_entry from src/main.py.  data models the JSON body dict;
uuid4 the generated id; now_iso the server-side timestamp.  The body
subscript data["section_key"] raises KeyError when the key is absent,
before the insert; the optional fields use data.get, so absence
becomes null.  No validation of section_key against ALLOWED_SECTIONS
is performed. -/
def create_entry (data : Dict) (uuid4 : String) (now_iso : String) :
    Outcome StatusResponse × List Action :=
  match data "section_key" with
  | none => (.fault "KeyError: section_key", [])
  | some sk =>
    (.ok { status := "created" },
     [.dbInsertEntry
        { id := uuid4,
          section_key := sk,
          title := data "title",
          industry := data "industry",
          description := data "description",
          file_url := data "file_url",
          file_type := data "file_type",
          created_at := now_iso }])

/-- delete_entry from src/main.py: unconditionally issues the delete
filtered on id and returns a fixed success body.  db models the
entries table; the second component is the table after the delete. -/
def delete_entry (db : List EntryRow) (entry_id : String) :
    (Outcome StatusResponse × List Action) × List EntryRow :=
  ((.ok { status := "deleted" }, [.dbDeleteEntries entry_id]),
   db.filter (fun e => decide (e.id ≠ entry_id)))

/-- A concrete identity verifier used in witnesses: accepts exactly
the token "tok-A", yielding the UID "uid-A". -/
def verifyW : Verifier :=
  fun t => if t = "tok-A" then some { uid := "uid-A", email := none } else none

/-- A concrete small upload used in witnesses. -/
def fileW : UploadFile :=
  { filename := "f.pdf", content_type := "application/pdf", contents := [1, 2, 3] }

/-- A concrete oversized upload (20 MiB plus one byte) with an
allowed MIME type, used in witnesses. -/
def fileBig : UploadFile :=
  { filename := "big.pdf", content_type := "application/pdf",
    contents := List.replicate 20971521 0 }

/-- A concrete entry-creation body whose section_key is not an
allowed section. -/
def badEntryBody : Dict :=
  fun k => if k = "section_key" then some (Value.str "legal") else none

/-- The empty JSON body (no keys present). -/
def emptyBody : Dict := fun _ => none

/-- A concrete existing dashboard row used in witnesses. -/
def exW : Dict :=
  fun k =>
    if k = "name" then some (Value.str "Y")
    else if k = "title" then some (Value.str "CFO")
    else if k = "id" then some (Value.num 1)
    else none

/-- A concrete partial-update body used in witnesses: overwrites
name, and also tries to overwrite the non-allow-listed field id. -/
def dataW : Dict :=
  fun k =>
    if k = "name" then some (Value.str "X")
    else if k = "id" then some (Value.num 99)
    else none

/-- Pointwise characterisation of the merge loop: a key gets the
submitted value when it is one of the iterated allow-listed keys and
is present in data, and keeps the payload value otherwise. -/
theorem mergeAllowed_apply (data : Dict) (ks : List String) (payload : Dict) (k : String) :
    mergeAllowed data ks payload k =
      if k ∈ ks ∧ (data k).isSome then data k else payload k := by
  induction ks generalizing payload with
  | nil => simp [mergeAllowed]
  | cons a ks ih =>
    simp only [mergeAllowed]
    cases hda : data a with
    | none =>
      rw [ih]
      by_cases hk : k = a
      · subst hk; simp [hda]
      · simp [List.mem_cons, hk]
    | some v =>
      rw [ih]
      by_cases hk : k = a
      · subst hk
        by_cases hmem : k ∈ ks <;> simp [hmem, hda, dictSet]
      · simp [List.mem_cons, hk, dictSet]

/-- Pointwise characterisation of the payload written by
update_dashboard: updated_at is stamped, allow-listed keys present in
data are overwritten, every other key keeps the existing value. -/
theorem dashboardPayload_apply (ex data : Dict) (now_iso : String) (k : String) :
    dashboardPayload ex data now_iso k =
      if k = "updated_at" then some (Value.str now_iso)
      else if k ∈ dashboardAllowedFields ∧ (data k).isSome then data k
      else ex k := by
  by_cases hk : k = "updated_at" <;>
    simp [dashboardPayload, dictSet, hk, mergeAllowed_apply]

/-- C1: for every request whose Authorization header splits on
whitespace into exactly a scheme and a token, whose scheme
case-insensitively equals "bearer", whose token the identity verifier
successfully decodes, and whose decoded UID is in the allow-list, the
gate returns the verified claims containing that UID, so the request
proceeds past the gate. -/
theorem c1_gate_accepts_allowlisted_admin
    (verify : Verifier) (uids : List String) (authorization scheme token : String)
    (claims : Claims)
    (hsplit : pySplit authorization = [scheme, token])
    (hscheme : pyLower scheme = "bearer")
    (hverify : verify token = some claims)
    (huid : claims.uid ∈ uids) :
    verify_admin verify uids authorization = .ok claims := by
  simp [verify_admin, hsplit, hscheme, hverify, huid]

/-- Witness for C1 at a concrete header, verifier and allow-list. -/
theorem c1_witness :
    pySplit "Bearer tok-A" = ["Bearer", "tok-A"] ∧
    pyLower "Bearer" = "bearer" ∧
    verifyW "tok-A" = some { uid := "uid-A", email := none } ∧
    "uid-A" ∈ ["uid-A"] ∧
    verify_admin verifyW ["uid-A"] "Bearer tok-A" = .ok { uid := "uid-A", email := none } :=
  ⟨by decide, by decide, rfl, by decide,
   c1_gate_accepts_allowlisted_admin verifyW ["uid-A"] "Bearer tok-A" "Bearer" "tok-A"
     { uid := "uid-A", email := none } (by decide) (by decide) rfl (by decide)⟩

/-- C2: every failing input to the gate — header not splitting into
exactly a scheme and a token, scheme not case-insensitively bearer,
token rejected by the verifier, or a verified UID outside the
allow-list — produces the identical outcome
HTTPException 401 "Unauthorized", so any two failing runs are
indistinguishable and disclose nothing about which step failed. -/
theorem c2_failures_collapse_to_single_401
    (verify : Verifier) (uids : List String) (authorization : String)
    (hfail :
      (∀ scheme token, pySplit authorization ≠ [scheme, token]) ∨
      (∃ scheme token, pySplit authorization = [scheme, token] ∧
        pyLower scheme ≠ "bearer") ∨
      (∃ scheme token, pySplit authorization = [scheme, token] ∧
        pyLower scheme = "bearer" ∧ verify token = none) ∨
      (∃ scheme token claims, pySplit authorization = [scheme, token] ∧
        pyLower scheme = "bearer" ∧ verify token = some claims ∧ claims.uid ∉ uids)) :
    verify_admin verify uids authorization = .unauthorized 401 "Unauthorized" := by
  rcases hfail with h | ⟨s, t, hst, hs⟩ | ⟨s, t, hst, hs, hv⟩ | ⟨s, t, c, hst, hs, hv, hu⟩
  · rcases hl : pySplit authorization with _ | ⟨a, _ | ⟨b, _ | ⟨d, l⟩⟩⟩
    · simp [verify_admin, hl]
    · simp [verify_admin, hl]
    · exact absurd hl (h a b)
    · simp [verify_admin, hl]
  · simp [verify_admin, hst, hs]
  · simp [verify_admin, hst, hs, hv]
  · simp [verify_admin, hst, hs, hv, hu]

/-- Witness for C2 at a concrete failing header (wrong scheme). -/
theorem c2_witness :
    verify_admin verifyW ["uid-A"] "Basic tok-A" = .unauthorized 401 "Unauthorized" :=
  c2_failures_collapse_to_single_401 verifyW ["uid-A"] "Basic tok-A"
    (Or.inr (Or.inl ⟨"Basic", "tok-A", by decide, by decide⟩))

/-- C3: evaluation of create_entry at a body whose section_key is the
non-allowed section "legal": contrary to the claim, the handler
performs the external insert and creates the entry with the
disallowed section_key, because create_entry contains no check of
section_key against ALLOWED_SECTIONS. -/
theorem c3_create_entry_inserts_disallowed_section :
    "legal" ∉ ALLOWED_SECTIONS ∧
    create_entry badEntryBody "id-1" "2026-01-01T00:00:00" =
      (.ok { status := "created" },
       [.dbInsertEntry
          { id := "id-1", section_key := Value.str "legal", title := none,
            industry := none, description := none, file_url := none,
            file_type := none, created_at := "2026-01-01T00:00:00" }]) :=
  ⟨by decide, rfl⟩

/-- C4 counterexample: the section "Dashboard" is, case-normalized to
lowercase, a member of ALLOWED_SECTIONS, yet both the entry-listing
endpoint and the upload endpoint reject it: the code compares the
section string to ALLOWED_SECTIONS exactly, without lowercasing. -/
theorem c4_counterexample :
    pyLower "Dashboard" ∈ ALLOWED_SECTIONS ∧
    (get_entries [] "Dashboard").1 = .http 404 none ∧
    (upload_file "Dashboard" fileW "u" (fun _ _ => "url")).1 =
      .http 400 (some "Invalid section") := by
  refine ⟨by decide, ?_, ?_⟩ <;> rfl

/-- C4 (amended): the section validation of the entry-listing and
upload endpoints accepts the request exactly when the section string
itself, without any case normalization, is a member of
ALLOWED_SECTIONS; a section differing from an allowed section only in
letter case is rejected. -/
theorem c4_section_check_is_exact_membership
    (db : List EntryRow) (sect : String) (file : UploadFile) (uuid4 : String)
    (pu : String → String → String) :
    ((∃ rows, (get_entries db sect).1 = Outcome.ok rows) ↔ sect ∈ ALLOWED_SECTIONS) ∧
    ((upload_file sect file uuid4 pu).1 ≠ Outcome.http 400 (some "Invalid section") ↔
      sect ∈ ALLOWED_SECTIONS) := by
  by_cases h : sect ∈ ALLOWED_SECTIONS
  · have hg : (get_entries db sect).1 =
        Outcome.ok (sortByCreatedDesc
          (db.filter (fun e => decide (e.section_key = Value.str sect)))) := by
      simp [get_entries, h]
    refine ⟨⟨fun _ => h, fun _ => ⟨_, hg⟩⟩, ⟨fun _ => h, fun _ => ?_⟩⟩
    simp only [upload_file, h, not_true_eq_false, if_false]
    split
    · simp
    · split <;> simp
  · refine ⟨⟨fun hr => ?_, fun hc => absurd hc h⟩,
      ⟨fun hc => absurd (by simp [upload_file, h]) hc, fun hc => absurd hc h⟩⟩
    obtain ⟨rows, hr⟩ := hr
    rw [show (get_entries db sect).1 = .http 404 none by simp [get_entries, h]] at hr
    exact Outcome.noConfusion hr

/-- Witness for C4 (amended) at the concrete allowed section
"models". -/
theorem c4_witness :
    "models" ∈ ALLOWED_SECTIONS ∧
    (∃ rows, (get_entries [] "models").1 = Outcome.ok rows) :=
  ⟨by decide,
   (c4_section_check_is_exact_membership [] "models" fileW "u" (fun _ _ => "url")).1.mpr
     (by decide)⟩

/-- The length of the oversized witness payload, one byte above the
20 MiB ceiling. -/
theorem fileBig_length : fileBig.contents.length = 20971521 := by
  rw [show fileBig.contents = List.replicate 20971521 0 from rfl]
  exact List.length_replicate ..

/-- C5: an upload whose payload exceeds MAX_FILE_SIZE_MB times
1048576 bytes is rejected with a 400 BadRequest and an empty external
trace (no storage call); with an allowed section and an allowed MIME
type the rejection detail is "File too large"; and a payload of at
most the ceiling never triggers the size rejection. -/
theorem c5_oversized_upload_rejected
    (sect : String) (file : UploadFile) (uuid4 : String)
    (pu : String → String → String) :
    (file.contents.length > MAX_FILE_SIZE_MB * 1024 * 1024 →
       (∃ d, (upload_file sect file uuid4 pu).1 = .http 400 d) ∧
       (upload_file sect file uuid4 pu).2 = []) ∧
    (file.contents.length > MAX_FILE_SIZE_MB * 1024 * 1024 →
     file.content_type ∈ ALLOWED_MIME_TYPES → sect ∈ ALLOWED_SECTIONS →
       upload_file sect file uuid4 pu = (.http 400 (some "File too large"), [])) ∧
    (file.contents.length ≤ MAX_FILE_SIZE_MB * 1024 * 1024 →
       (upload_file sect file uuid4 pu).1 ≠ .http 400 (some "File too large")) := by
  refine ⟨fun hbig => ?_, fun hbig hmime hsect => ?_, fun hsmall => ?_⟩
  · by_cases hsect : sect ∈ ALLOWED_SECTIONS
    · by_cases hmime : file.content_type ∈ ALLOWED_MIME_TYPES
      · simp [upload_file, hsect, hmime, hbig]
      · simp [upload_file, hsect, hmime]
    · simp [upload_file, hsect]
  · simp [upload_file, hsect, hmime, hbig]
  · by_cases hsect : sect ∈ ALLOWED_SECTIONS
    · by_cases hmime : file.content_type ∈ ALLOWED_MIME_TYPES
      · simp [upload_file, hsect, hmime, Nat.not_lt.mpr hsmall]
      · simp [upload_file, hsect, hmime]
    · simp [upload_file, hsect]

/-- Witness for C5 at a concrete 20-MiB-plus-one-byte PDF upload with
MAX_FILE_SIZE_MB = 20. -/
theorem c5_witness :
    fileBig.contents.length > MAX_FILE_SIZE_MB * 1024 * 1024 ∧
    fileBig.content_type ∈ ALLOWED_MIME_TYPES ∧
    "models" ∈ ALLOWED_SECTIONS ∧
    upload_file "models" fileBig "u" (fun _ _ => "url") =
      (.http 400 (some "File too large"), []) :=
  ⟨by rw [fileBig_length]; norm_num [MAX_FILE_SIZE_MB], by decide, by decide,
   (c5_oversized_upload_rejected "models" fileBig "u" (fun _ _ => "url")).2.1
     (by rw [fileBig_length]; norm_num [MAX_FILE_SIZE_MB]) (by decide) (by decide)⟩

/-- C6: for every section not in ALLOWED_SECTIONS, the public
entry-listing endpoint answers 404 and the admin upload endpoint
answers 400 "Invalid section", and both emit an empty external trace,
so no storage or database call is made. -/
theorem c6_unknown_section_rejected_without_external_call
    (db : List EntryRow) (sect : String) (file : UploadFile) (uuid4 : String)
    (pu : String → String → String) (h : sect ∉ ALLOWED_SECTIONS) :
    get_entries db sect = (.http 404 none, []) ∧
    upload_file sect file uuid4 pu = (.http 400 (some "Invalid section"), []) := by
  constructor
  · simp [get_entries, h]
  · simp [upload_file, h]

/-- Witness for C6 at the concrete unknown section "legal". -/
theorem c6_witness :
    "legal" ∉ ALLOWED_SECTIONS ∧
    get_entries [] "legal" = (.http 404 none, []) ∧
    upload_file "legal" fileW "u" (fun _ _ => "url") =
      (.http 400 (some "Invalid section"), []) :=
  ⟨by decide,
   (c6_unknown_section_rejected_without_external_call [] "legal" fileW "u"
      (fun _ _ => "url") (by decide)).1,
   (c6_unknown_section_rejected_without_external_call [] "legal" fileW "u"
      (fun _ _ => "url") (by decide)).2⟩

/-- C7: on an existing singleton row, update_dashboard writes exactly
the existing record with the allow-listed fields present in the body
overwritten and updated_at freshly stamped; allow-listed fields
absent from the body and every field outside the allow-list (id
included, even when submitted) keep their existing values; and when
no existing row is found the operation fails with 400 and performs no
write. -/
theorem c7_dashboard_update_frame (ex data : Dict) (now_iso : String) :
    update_dashboard (some ex) data now_iso =
      (.ok { status := "updated" },
       [.dbSelectDashboard, .dbUpdateDashboard (dashboardPayload ex data now_iso)]) ∧
    (∀ k v, k ∈ dashboardAllowedFields → data k = some v →
       dashboardPayload ex data now_iso k = some v) ∧
    (∀ k, k ∈ dashboardAllowedFields → data k = none →
       dashboardPayload ex data now_iso k = ex k) ∧
    (∀ k, k ∉ dashboardAllowedFields → k ≠ "updated_at" →
       dashboardPayload ex data now_iso k = ex k) ∧
    dashboardPayload ex data now_iso "updated_at" = some (Value.str now_iso) ∧
    update_dashboard none data now_iso =
      (.http 400 (some "Dashboard row missing"), [.dbSelectDashboard]) ∧
    (∀ p, Action.dbUpdateDashboard p ∉ (update_dashboard none data now_iso).2) := by
  refine ⟨rfl, fun k v hk hv => ?_, fun k hk hv => ?_, fun k hk hu => ?_, ?_, rfl, fun p => ?_⟩
  · have hne : k ≠ "updated_at" := by
      intro hEq; rw [hEq] at hk; exact absurd hk (by decide)
    rw [dashboardPayload_apply]
    simp [hne, hk, hv]
  · have hne : k ≠ "updated_at" := by
      intro hEq; rw [hEq] at hk; exact absurd hk (by decide)
    rw [dashboardPayload_apply]
    simp [hne, hv]
  · rw [dashboardPayload_apply]
    simp [hu, hk]
  · rw [dashboardPayload_apply]
    simp
  · simp [update_dashboard]

/-- Witness for C7 at the concrete example of the spec: existing row
with name Y, title CFO and id 1; body submitting name X and id 99.
The written payload has name X, keeps title CFO, and keeps id 1. -/
theorem c7_witness :
    ("name" ∈ dashboardAllowedFields ∧ dataW "name" = some (Value.str "X") ∧
      dashboardPayload exW dataW "2026-01-01T00:00:00" "name" = some (Value.str "X")) ∧
    ("title" ∈ dashboardAllowedFields ∧ dataW "title" = none ∧
      dashboardPayload exW dataW "2026-01-01T00:00:00" "title" = exW "title") ∧
    ("id" ∉ dashboardAllowedFields ∧ "id" ≠ "updated_at" ∧
      dashboardPayload exW dataW "2026-01-01T00:00:00" "id" = exW "id") :=
  ⟨⟨by decide, rfl,
    (c7_dashboard_update_frame exW dataW "2026-01-01T00:00:00").2.1 "name"
      (Value.str "X") (by decide) rfl⟩,
   ⟨by decide, rfl,
    (c7_dashboard_update_frame exW dataW "2026-01-01T00:00:00").2.2.1 "title"
      (by decide) rfl⟩,
   ⟨by decide, by decide,
    (c7_dashboard_update_frame exW dataW "2026-01-01T00:00:00").2.2.2.1 "id"
      (by decide) (by decide)⟩⟩

/-- C8: applying the dashboard-update merge twice in succession (the
second application reading back the record written by the first)
yields the same record as applying it once, at every field other than
updated_at. -/
theorem c8_dashboard_merge_idempotent (ex data : Dict) (t1 t2 : String) (k : String)
    (hk : k ≠ "updated_at") :
    dashboardPayload (dashboardPayload ex data t1) data t2 k =
      dashboardPayload ex data t1 k := by
  simp only [dashboardPayload_apply]
  by_cases hC : k ∈ dashboardAllowedFields ∧ (data k).isSome <;> simp [hk, hC]

/-- Witness for C8 at the concrete row and body of the C7 witness,
read at the field name. -/
theorem c8_witness :
    ("name" : String) ≠ "updated_at" ∧
    dashboardPayload (dashboardPayload exW dataW "T1") dataW "T2" "name" =
      dashboardPayload exW dataW "T1" "name" :=
  ⟨by decide, c8_dashboard_merge_idempotent exW dataW "T1" "T2" "name" (by decide)⟩

/-- C9 counterexample: at the empty JSON body, create_entry raises an
unhandled KeyError (an internal-server-error fault), and its outcome
is not an HTTP 400 BadRequest for any detail, contrary to the claim
that a missing required field yields a BadRequest client error. -/
theorem c9_counterexample :
    (create_entry emptyBody "id-1" "ts").1 = .fault "KeyError: section_key" ∧
    ∀ d, (create_entry emptyBody "id-1" "ts").1 ≠ Outcome.http 400 d := by
  refine ⟨rfl, fun d h => ?_⟩
  rw [show (create_entry emptyBody "id-1" "ts").1 = .fault "KeyError: section_key" from rfl] at h
  exact Outcome.noConfusion h

/-- C9 (amended): for every entry-creation body missing section_key,
create_entry raises an unhandled KeyError — surfacing as an internal
server error, not a BadRequest — and does so before any external
call (the emitted trace is empty). -/
theorem c9_missing_section_key_raises_keyerror_before_external_call
    (data : Dict) (uuid4 now_iso : String) (h : data "section_key" = none) :
    create_entry data uuid4 now_iso = (.fault "KeyError: section_key", []) := by
  simp [create_entry, h]

/-- Witness for C9 (amended) at the empty body. -/
theorem c9_witness :
    emptyBody "section_key" = none ∧
    create_entry emptyBody "u" "t" = (.fault "KeyError: section_key", []) :=
  ⟨rfl, c9_missing_section_key_raises_keyerror_before_external_call emptyBody "u" "t" rfl⟩

/-- C10: delete_entry returns the success body status deleted and
issues the same single delete call for every database state, so
deleting a nonexistent id is externally indistinguishable from
deleting an existing one. -/
theorem c10_delete_entry_uniform_success (db db2 : List EntryRow) (entry_id : String) :
    (delete_entry db entry_id).1 =
      (.ok { status := "deleted" }, [.dbDeleteEntries entry_id]) ∧
    (delete_entry db entry_id).1 = (delete_entry db2 entry_id).1 :=
  ⟨rfl, rfl⟩

end Pandu
